import Mathlib

/-
Shallow embedding of src/app.py, a Streamlit dashboard over a CSV of
country-level import/export statistics.  The Loader/Cleaner (`load_data`)
and the view-layer computations of `main` are modelled as pure functions
on an explicit table representation.  Cell values are strings as they
appear in the delimited file; a missing cell (pandas NaN) is `none`.
Machine floats are modelled by `ℚ`; the pandas NaN that the mean of an
empty series produces is modelled by `Option.none`.
-/

namespace ImpExp

/-- Model of pandas `str.strip` / `df.columns.str.strip()` (app.py line 48):
drop whitespace characters from both ends of a string. -/
def strTrim (s : String) : String :=
  ⟨((s.toList.dropWhile Char.isWhitespace).reverse.dropWhile Char.isWhitespace).reverse⟩

/-- Model of `.str.replace(',', '')` (app.py line 71): delete every comma
character from the string. -/
def stripCommas (s : String) : String :=
  ⟨s.toList.filter (fun c => !(c == ','))⟩

/-- Model of `.str.replace('-', '0')` (app.py line 71): replace every hyphen
character of the string by the digit zero. -/
def replaceHyphens (s : String) : String :=
  ⟨s.toList.map (fun c => if c == '-' then '0' else c)⟩

/-- Numeric value of a list of decimal digit characters, most significant
first. -/
def natOfDigits (l : List Char) : Nat :=
  l.foldl (fun a c => 10 * a + (c.toNat - 48)) 0

/-- Parse an unsigned decimal literal, optionally with a fractional part
(digits, or digits '.' digits, or '.' digits, or digits '.'), into a
numerator/denominator pair.  Returns `none` when the characters do not
form such a literal.  Together with `parseSigned` this models the string
grammar accepted by `pd.to_numeric` (app.py lines 57 and 72). -/
def parseParts (l : List Char) : Option (Nat × Nat) :=
  match l.span Char.isDigit with
  | (ds, []) => if ds.isEmpty then none else some (natOfDigits ds, 1)
  | (ds, c :: fs) =>
      if c == '.' && fs.all Char.isDigit && !(ds.isEmpty && fs.isEmpty) then
        some (natOfDigits ds * 10 ^ fs.length + natOfDigits fs, 10 ^ fs.length)
      else none

/-- Parse an optionally signed decimal literal into a rational. -/
def parseSigned (l : List Char) : Option ℚ :=
  match l with
  | [] => (parseParts []).map (fun p => mkRat ((p.1 : Int)) p.2)
  | c :: rest =>
      if c == '-' then (parseParts rest).map (fun p => mkRat (-(p.1 : Int)) p.2)
      else if c == '+' then (parseParts rest).map (fun p => mkRat ((p.1 : Int)) p.2)
      else (parseParts (c :: rest)).map (fun p => mkRat ((p.1 : Int)) p.2)

/-- Model of `pd.to_numeric(·, errors='coerce')` on a single string cell:
surrounding whitespace is tolerated, failure yields `none` (NaN). -/
def parseNumeric (s : String) : Option ℚ :=
  parseSigned (strTrim s).toList

/-- String-level part of the numeric-column cleaning chain of app.py
line 71: `astype(str)` (NaN prints as "nan"), then
`.str.replace(',', '')`, then `.str.replace('-', '0')`, then
`.replace('nan', '0')` (whole-value replacement). -/
def preClean (v : Option String) : String :=
  if replaceHyphens (stripCommas (v.getD "nan")) = "nan" then "0"
  else replaceHyphens (stripCommas (v.getD "nan"))

/-- Full cleaning of one cell of a numeric column (app.py lines 71-72):
the string chain of `preClean`, then `pd.to_numeric(errors='coerce')`,
then `.fillna(0)`. -/
def cleanNumericCell (v : Option String) : ℚ :=
  (parseNumeric (preClean v)).getD 0

/-- Truncation of a rational toward zero, the behaviour of numpy
`astype(int)` on floats (app.py line 59).  `Rat.num / Rat.den` with
truncating integer division. -/
def truncToZero (q : ℚ) : Int :=
  Int.tdiv q.num (q.den : Int)

/-- Rank pipeline of app.py lines 57-59 for one cell:
`pd.to_numeric(errors='coerce')`, rows whose result is NaN are dropped
(`dropna`), the survivors are truncated to integers (`astype(int)`). -/
def rankCoerce (v : Option String) : Option Int :=
  match v with
  | none => none
  | some s => (parseNumeric s).map truncToZero

/-- One row of the parsed CSV: association list from column name to cell
value; `none` models a NaN cell. -/
abbrev Row := List (String × Option String)

/-- Parsed CSV table: the header names and the data rows. -/
structure RawTable where
  header : List String
  rows : List Row
  deriving DecidableEq

/-- Access a cell of a row by (stripped) column name, as done on the
dataframe after `df.columns = df.columns.str.strip()`. -/
def lookupCell (row : Row) (c : String) : Option String :=
  ((row.map (fun p => (strTrim p.1, p.2))).lookup c).join

/-- One country Record after cleaning (spec section 3): integer rank,
country name (the raw `수입국` cell), and the nine numeric fields. -/
structure Record where
  rank : Int
  country : Option String
  importValue : ℚ
  exportValue : ℚ
  tradeBalance : ℚ
  imp2024 : ℚ
  exp2024 : ℚ
  imp2023 : ℚ
  exp2023 : ℚ
  imp2022 : ℚ
  exp2022 : ℚ
  deriving DecidableEq

/-- The nine numeric fields of a Record, in the order of `numeric_cols`. -/
def fieldsOf (rec : Record) : List ℚ :=
  [rec.importValue, rec.exportValue, rec.tradeBalance,
   rec.imp2024, rec.exp2024, rec.imp2023, rec.exp2023,
   rec.imp2022, rec.exp2022]

/-- The nine expected numeric columns of app.py lines 62-67. -/
def numeric_cols : List String :=
  ["수입액(천$)", "수출액(천$)", "무역수지(천$)",
   "2024 - 수입금액(천$)", "2024 - 수출액(천$)",
   "2023 - 수입금액(천$)", "2023 - 수출액(천$)",
   "2022 - 수입금액(천$)", "2022 - 수출액(천$)"]

/-- Value of a numeric column for one row (app.py lines 69-74): if the
column is present in the header the cell is cleaned, otherwise the whole
column is synthesized as zero. -/
def colValue (header : List String) (row : Row) (c : String) : ℚ :=
  if c ∈ header then cleanNumericCell (lookupCell row c) else 0

/-- Cleaning of one row of the table (app.py lines 56-74): the rank cell
must survive numeric coercion, otherwise the row is dropped; the nine
numeric columns are cleaned cell-wise (or zero when absent). -/
def cleanRow (header : List String) (row : Row) : Option Record :=
  match rankCoerce (lookupCell row "순위") with
  | none => none
  | some rk =>
      some { rank := rk
             country := lookupCell row "수입국"
             importValue := colValue header row "수입액(천$)"
             exportValue := colValue header row "수출액(천$)"
             tradeBalance := colValue header row "무역수지(천$)"
             imp2024 := colValue header row "2024 - 수입금액(천$)"
             exp2024 := colValue header row "2024 - 수출액(천$)"
             imp2023 := colValue header row "2023 - 수입금액(천$)"
             exp2023 := colValue header row "2023 - 수출액(천$)"
             imp2022 := colValue header row "2022 - 수입금액(천$)"
             exp2022 := colValue header row "2022 - 수출액(천$)" }

/-- Table-level part of `load_data` (app.py lines 47-76): strip the
column names, fail (error message and empty table, modelled `none`) when
no `순위` column exists, otherwise clean every row, silently dropping
rows whose rank fails coercion. -/
def load_data_table (t : RawTable) : Option (List Record) :=
  if "순위" ∈ t.header.map strTrim then
    some (t.rows.filterMap (cleanRow (t.header.map strTrim)))
  else none

/-- Outcome of one `pd.read_csv` attempt under a given encoding:
successful decode yielding the raw lines (each line already split into
fields), a `UnicodeDecodeError`, or any other exception. -/
inductive ReadAttempt where
  | ok (lines : List (List String))
  | decodeError
  | otherError
  deriving DecidableEq

/-- Abstract model of the on-disk file: whether the path exists, and what
reading it (line 36 and line 39) under each of the two encodings would
produce. -/
structure CsvFile where
  presentOnDisk : Bool
  cp949 : ReadAttempt
  utf8 : ReadAttempt
  deriving DecidableEq

/-- Model of pandas turning an empty field into NaN when reading. -/
def emptyCellToNone (s : String) : Option String :=
  if s = "" then none else some s

/-- Model of `pd.read_csv(file_path, header=1)`: the first line is
skipped as a banner row, the second line is the header, the remaining
lines are data rows keyed by the header names.  Fewer than two lines is
a parse failure (pandas EmptyDataError). -/
def parseCsv (lines : List (List String)) : Option RawTable :=
  match lines with
  | _ :: headerLine :: dataLines =>
      some { header := headerLine
             rows := dataLines.map (fun fields => headerLine.zip (fields.map emptyCellToNone)) }
  | _ => none

/-- Full `load_data` (app.py lines 21-80): existence check, then the
cp949 attempt, falling back to utf-8 only on a decode error, then the
table-level cleaning.  `none` models every error branch (a user-visible
message plus an empty dataframe). -/
def load_data (f : CsvFile) : Option (List Record) :=
  if f.presentOnDisk = false then none
  else
    match f.cp949 with
    | ReadAttempt.ok lines =>
        match parseCsv lines with
        | some t => load_data_table t
        | none => none
    | ReadAttempt.decodeError =>
        match f.utf8 with
        | ReadAttempt.ok lines =>
            match parseCsv lines with
            | some t => load_data_table t
            | none => none
        | _ => none
    | ReadAttempt.otherError => none

/-- Rank-range filter of app.py line 107:
`df[(df['순위'] >= rank_range[0]) & (df['순위'] <= rank_range[1])]`. -/
def filtered_df (df : List Record) (a b : Int) : List Record :=
  df.filter (fun r => decide (a ≤ r.rank) && decide (r.rank ≤ b))

/-- KPI of app.py line 114: `filtered_df['수입액(천$)'].sum()`. -/
def total_import (l : List Record) : ℚ :=
  (l.map Record.importValue).sum

/-- KPI of app.py line 115: `filtered_df['수출액(천$)'].sum()`. -/
def total_export (l : List Record) : ℚ :=
  (l.map Record.exportValue).sum

/-- KPI of app.py line 116: `filtered_df['무역수지(천$)'].mean()`.
Pandas returns the floating NaN for the mean of an empty series;
`none` models that NaN. -/
def avg_balance (l : List Record) : Option ℚ :=
  match l with
  | [] => none
  | _ => some ((l.map Record.tradeBalance).sum / (l.length : ℚ))

/-- Arguments handed to `px.scatter` in app.py lines 142-150. -/
structure ScatterSpec where
  data : List Record
  xCol : String
  yCol : String
  sizeCol : String
  logX : Bool
  logY : Bool
  deriving DecidableEq

/-- Construction of the correlation chart (app.py lines 142-150): the
filtered table is handed to the chart unchanged, with logarithmic x and
y axes requested. -/
def scatterFig (filtered : List Record) : ScatterSpec :=
  { data := filtered
    xCol := "수입액(천$)"
    yCol := "수출액(천$)"
    sizeCol := "수입액(천$)"
    logX := true
    logY := true }

/-- Options of the trend-view country selector (app.py line 155):
`filtered_df['수입국'].unique()` — the distinct country cells of the
rank-filtered sub-table only. -/
def countryOptions (filtered : List Record) : List (Option String) :=
  (filtered.map Record.country).dedup

/-- Pandas elementwise equality on possibly-NaN cells: NaN compares
unequal to everything, including NaN. -/
def pandasEq (a b : Option String) : Bool :=
  match a, b with
  | some x, some y => x == y
  | _, _ => false

/-- Row lookup of app.py line 160:
`df[df['수입국'] == selected_country].iloc[0]` — the first row of the
full table whose country cell equals the selection. -/
def trendLookup (full : List Record) (sel : Option String) : Option Record :=
  full.find? (fun r => pandasEq r.country sel)

/-- What the trend tab renders. -/
inductive TrendOutput where
  | chart (importVals exportVals : List ℚ)
  | noCountries
  deriving DecidableEq

/-- Trend tab of app.py lines 153-175: if the filtered table offers no
countries an informational placeholder is shown; otherwise the selected
country's row is looked up in the full table and its three-year import
and export values are plotted.  The outer `none` models the uncaught
IndexError that `.iloc[0]` would raise on an empty lookup result (that
lookup sits outside the try/except). -/
def trend_view (full filtered : List Record) (sel : Option String) : Option TrendOutput :=
  if (countryOptions filtered).isEmpty then some TrendOutput.noCountries
  else
    match trendLookup full sel with
    | some rec => some (TrendOutput.chart
        [rec.imp2022, rec.imp2023, rec.imp2024]
        [rec.exp2022, rec.exp2023, rec.exp2024])
    | none => none

/-- Concrete two-country table whose ranks 1 and 30 leave a gap, so the
user-selectable slider range [5,5] produces an empty filtered table. -/
def c1df : List Record :=
  [⟨1, some "가나", 10, 20, 5, 0, 0, 0, 0, 0, 0⟩,
   ⟨30, some "페루", 7, 8, 9, 0, 0, 0, 0, 0, 0⟩]

/-- Concrete header for the comma/hyphen cleaning scenario. -/
def c2header : List String := ["순위", "수입국", "수입액(천$)", "수출액(천$)"]

/-- Concrete row with import cell "1,234" and export cell "-". -/
def c2row : Row :=
  [("순위", some "1"), ("수입국", some "칠레"),
   ("수입액(천$)", some "1,234"), ("수출액(천$)", some "-")]

/-- Record that the cleaning of `c2row` produces. -/
def c2rec : Record := ⟨1, some "칠레", 1234, 0, 0, 0, 0, 0, 0, 0, 0⟩

/-- Concrete table with a negative-looking import cell "-7". -/
def c3table : RawTable :=
  { header := ["순위", "수입액(천$)"]
    rows := [[("순위", some "2"), ("수입액(천$)", some "-7")]] }

/-- Record that cleaning `c3table` produces: the "-7" cell becomes 7. -/
def c3rec : Record := ⟨2, none, 7, 0, 0, 0, 0, 0, 0, 0, 0⟩

/-- Concrete table with an import cell "-" that cleans to zero. -/
def c4table : RawTable :=
  { header := ["순위", "수입국", "수입액(천$)", "수출액(천$)"]
    rows := [[("순위", some "1"), ("수입국", some "나이지리아"),
              ("수입액(천$)", some "-"), ("수출액(천$)", some "5")]] }

/-- Record that cleaning `c4table` produces: import value exactly 0. -/
def c4rec : Record := ⟨1, some "나이지리아", 0, 5, 0, 0, 0, 0, 0, 0, 0⟩

/-- Concrete record of rank 1 for the filter-boundary scenario. -/
def c5rec : Record := ⟨1, some "브라질", 0, 0, 0, 0, 0, 0, 0, 0, 0⟩

/-- Concrete table whose header needs trimming and which lacks most of
the nine numeric columns. -/
def c6table : RawTable :=
  { header := [" 순위 ", "수입국", "수입액(천$)"]
    rows := [[(" 순위 ", some "3"), ("수입국", some "독일"),
              ("수입액(천$)", some "2,000")]] }

/-- Record that cleaning `c6table` produces. -/
def c6rec : Record := ⟨3, some "독일", 2000, 0, 0, 0, 0, 0, 0, 0, 0⟩

/-- Concrete table with one "N/A" rank row and one valid rank row. -/
def c7table : RawTable :=
  { header := ["순위"]
    rows := [[("순위", some "N/A")], [("순위", some "4")]] }

/-- Concrete file whose cp949 read raises a decode error and whose utf-8
read succeeds with a banner line, a header line and one data row. -/
def c8file : CsvFile :=
  { presentOnDisk := true
    cp949 := ReadAttempt.decodeError
    utf8 := ReadAttempt.ok [["제목"], ["순위"], ["2"]] }

/-- Concrete cleaned table for the trend-view scenario: rank 25 falls
outside the default filter range. -/
def c9df : List Record :=
  [⟨1, some "인도", 3, 4, 1, 0, 0, 0, 0, 0, 0⟩,
   ⟨25, some "터키", 5, 6, 2, 0, 0, 0, 0, 0, 0⟩]

/-- Concrete row whose rank cell is the non-integer numeric "3.7". -/
def c10row : Row := [("순위", some "3.7")]

example : cleanNumericCell (some "1,234") = 1234 := by decide
example : cleanNumericCell (some "-") = 0 := by decide
example : cleanNumericCell (some "-123") = 123 := by decide
example : cleanNumericCell none = 0 := by decide
example : rankCoerce (some "3.7") = some 3 := by decide
example : rankCoerce (some "N/A") = none := by decide

/-- Characters of the trimmed string are characters of the original. -/
lemma mem_of_mem_strTrim {c : Char} {s : String} (h : c ∈ (strTrim s).toList) :
    c ∈ s.toList := by
  unfold strTrim at h
  simp only [String.toList] at h ⊢
  rw [List.mem_reverse] at h
  have h1 := (List.dropWhile_sublist Char.isWhitespace).subset h
  rw [List.mem_reverse] at h1
  exact (List.dropWhile_sublist Char.isWhitespace).subset h1

/-- After `replaceHyphens` no hyphen character remains. -/
lemma not_mem_replaceHyphens (s : String) : '-' ∉ (replaceHyphens s).toList := by
  unfold replaceHyphens
  simp only [String.toList]
  intro h
  rcases List.mem_map.mp h with ⟨a, _, ha⟩
  by_cases hb : a == '-'
  · rw [if_pos hb] at ha
    exact absurd ha (by decide)
  · rw [if_neg hb] at ha
    subst ha
    simp at hb

/-- Whatever `parseParts` returns is a pair of naturals, so the rational
built from it without an explicit minus sign is nonnegative. -/
lemma mkRat_natCast_nonneg (n d : Nat) : 0 ≤ mkRat (n : Int) d := by
  rw [Rat.mkRat_eq_div]
  positivity

/-- A character list that contains no hyphen parses to a nonnegative
rational (the only negative outcome of `parseSigned` needs a leading
hyphen). -/
lemma parseSigned_nonneg {l : List Char} {q : ℚ} (hl : ('-') ∉ l)
    (h : parseSigned l = some q) : 0 ≤ q := by
  cases l with
  | nil =>
      simp only [parseSigned] at h
      rcases Option.map_eq_some'.mp h with ⟨p, _, rfl⟩
      exact mkRat_natCast_nonneg p.1 p.2
  | cons c rest =>
      simp only [parseSigned] at h
      by_cases hminus : c == '-'
      · exact absurd (by simp [eq_of_beq hminus]) hl
      · rw [if_neg hminus] at h
        by_cases hplus : c == '+'
        · rw [if_pos hplus] at h
          rcases Option.map_eq_some'.mp h with ⟨p, _, rfl⟩
          exact mkRat_natCast_nonneg p.1 p.2
        · rw [if_neg hplus] at h
          rcases Option.map_eq_some'.mp h with ⟨p, _, rfl⟩
          exact mkRat_natCast_nonneg p.1 p.2

/-- Every cleaned numeric cell is nonnegative: the cleaning chain
replaces every hyphen by a zero digit before numeric coercion, and
coercion failures are filled with zero. -/
lemma cleanNumericCell_nonneg (v : Option String) : 0 ≤ cleanNumericCell v := by
  unfold cleanNumericCell
  cases hp : parseNumeric (preClean v) with
  | none => simp
  | some q =>
      simp only [Option.getD_some]
      unfold parseNumeric at hp
      refine parseSigned_nonneg (fun hmem => ?_) hp
      have hmem2 := mem_of_mem_strTrim hmem
      unfold preClean at hmem2
      by_cases hnan : replaceHyphens (stripCommas (v.getD "nan")) = "nan"
      · rw [if_pos hnan] at hmem2
        exact absurd hmem2 (by decide)
      · rw [if_neg hnan] at hmem2
        exact not_mem_replaceHyphens _ hmem2

/-- A successful `cleanRow` determines the record: its rank comes from
the rank pipeline and its numeric fields are the cleaned column
values. -/
lemma cleanRow_some {header : List String} {row : Row} {rec : Record}
    (h : cleanRow header row = some rec) :
    ∃ rk, rankCoerce (lookupCell row "순위") = some rk ∧
      rec = { rank := rk
              country := lookupCell row "수입국"
              importValue := colValue header row "수입액(천$)"
              exportValue := colValue header row "수출액(천$)"
              tradeBalance := colValue header row "무역수지(천$)"
              imp2024 := colValue header row "2024 - 수입금액(천$)"
              exp2024 := colValue header row "2024 - 수출액(천$)"
              imp2023 := colValue header row "2023 - 수입금액(천$)"
              exp2023 := colValue header row "2023 - 수출액(천$)"
              imp2022 := colValue header row "2022 - 수입금액(천$)"
              exp2022 := colValue header row "2022 - 수출액(천$)" } := by
  unfold cleanRow at h
  cases hrk : rankCoerce (lookupCell row "순위") with
  | none => rw [hrk] at h; cases h
  | some rk =>
      rw [hrk] at h
      exact ⟨rk, rfl, (Option.some.inj h).symm⟩

/-- A successful `load_data_table` means the rank column was present and
the result is the row-wise cleaning of the table. -/
lemma load_data_table_eq {t : RawTable} {recs : List Record}
    (h : load_data_table t = some recs) :
    "순위" ∈ t.header.map strTrim ∧
      recs = t.rows.filterMap (cleanRow (t.header.map strTrim)) := by
  unfold load_data_table at h
  by_cases hm : "순위" ∈ t.header.map strTrim
  · rw [if_pos hm] at h
    exact ⟨hm, (Option.some.inj h).symm⟩
  · rw [if_neg hm] at h
    cases h

/-- Every numeric column value of a row is nonnegative. -/
lemma colValue_nonneg (header : List String) (row : Row) (c : String) :
    0 ≤ colValue header row c := by
  unfold colValue
  split
  · exact cleanNumericCell_nonneg _
  · exact le_refl 0

/-- All nine numeric fields of a cleaned record are nonnegative. -/
lemma cleanRow_fields_nonneg {header : List String} {row : Row} {rec : Record}
    (h : cleanRow header row = some rec) : ∀ q ∈ fieldsOf rec, 0 ≤ q := by
  rcases cleanRow_some h with ⟨rk, _, rfl⟩
  intro q hq
  simp only [fieldsOf, List.mem_cons, List.not_mem_nil, or_false] at hq
  rcases hq with rfl | rfl | rfl | rfl | rfl | rfl | rfl | rfl | rfl <;>
    exact colValue_nonneg _ _ _

/-- C2: for any input row whose import-value field is the string "1,234"
and whose export-value field is the string "-", the cleaning step of
load_data yields import = 1234 and export = 0 for that row. -/
theorem clean_comma_and_hyphen (header : List String) (row : Row) (rec : Record)
    (himph : "수입액(천$)" ∈ header) (hexph : "수출액(천$)" ∈ header)
    (himp : lookupCell row "수입액(천$)" = some "1,234")
    (hexp : lookupCell row "수출액(천$)" = some "-")
    (hc : cleanRow header row = some rec) :
    rec.importValue = 1234 ∧ rec.exportValue = 0 := by
  rcases cleanRow_some hc with ⟨rk, _, rfl⟩
  constructor
  · show colValue header row "수입액(천$)" = 1234
    unfold colValue
    rw [if_pos himph, himp]
    decide
  · show colValue header row "수출액(천$)" = 0
    unfold colValue
    rw [if_pos hexph, hexp]
    decide

/-- Witness for C2 at a concrete row. -/
theorem clean_comma_and_hyphen_witness :
    c2rec.importValue = 1234 ∧ c2rec.exportValue = 0 :=
  clean_comma_and_hyphen c2header c2row c2rec (by decide) (by decide)
    (by decide) (by decide) (by decide)

/-- C3: after cleaning, every numeric cell is nonnegative — the cleaning
replaces every hyphen character by a zero digit before coercion, so the
string "-123" cleans to 123 and no negative value, including a negative
trade balance, survives into the view layer. -/
theorem cleaned_values_nonneg :
    (∀ v : Option String, 0 ≤ cleanNumericCell v) ∧
    cleanNumericCell (some "-123") = 123 ∧
    (∀ t recs, load_data_table t = some recs →
      ∀ rec ∈ recs, ∀ q ∈ fieldsOf rec, 0 ≤ q) := by
  refine ⟨cleanNumericCell_nonneg, by decide, ?_⟩
  intro t recs h rec hrec q hq
  rcases load_data_table_eq h with ⟨_, rfl⟩
  rcases List.mem_filterMap.mp hrec with ⟨row, _, hrow⟩
  exact cleanRow_fields_nonneg hrow q hq

/-- Witness for C3 at a concrete cell and a concrete table. -/
theorem cleaned_values_nonneg_witness :
    0 ≤ cleanNumericCell (some "-123") ∧
    (∀ q ∈ fieldsOf c3rec, 0 ≤ q) :=
  ⟨cleaned_values_nonneg.1 (some "-123"),
   cleaned_values_nonneg.2.2 c3table [c3rec] (by decide) c3rec (by decide)⟩

/-- C5: the rank filter keeps exactly the rows whose rank lies in the
inclusive range [a, b]: ranks a and b are kept, ranks a-1 and b+1 are
dropped. -/
theorem rank_filter_inclusive (df : List Record) (a b : Int) (rec : Record)
    (hab : a ≤ b) (hmem : rec ∈ df) :
    (rec ∈ filtered_df df a b ↔ a ≤ rec.rank ∧ rec.rank ≤ b) ∧
    (rec.rank = a → rec ∈ filtered_df df a b) ∧
    (rec.rank = b → rec ∈ filtered_df df a b) ∧
    (rec.rank = a - 1 → rec ∉ filtered_df df a b) ∧
    (rec.rank = b + 1 → rec ∉ filtered_df df a b) := by
  have hiff : rec ∈ filtered_df df a b ↔ a ≤ rec.rank ∧ rec.rank ≤ b := by
    simp [filtered_df, List.mem_filter, hmem]
  refine ⟨hiff, ?_, ?_, ?_, ?_⟩
  · intro h
    exact hiff.mpr (by omega)
  · intro h
    exact hiff.mpr (by omega)
  · intro h hc
    have := hiff.mp hc
    omega
  · intro h hc
    have := hiff.mp hc
    omega

/-- Witness for C5: the boundary rank 1 is kept by the filter [1, 2]. -/
theorem rank_filter_inclusive_witness :
    c5rec ∈ filtered_df [c5rec] 1 2 :=
  (rank_filter_inclusive [c5rec] 1 2 c5rec (by decide) (by decide)).2.1 rfl

/-- C7: a row whose rank cell fails numeric coercion (such as "N/A") is
silently dropped by the cleaning, and the load still succeeds on the
remaining rows. -/
theorem rank_na_dropped :
    (∀ header row, lookupCell row "순위" = some "N/A" →
      cleanRow header row = none) ∧
    (∀ t : RawTable, "순위" ∈ t.header.map strTrim →
      load_data_table t = some (t.rows.filterMap (cleanRow (t.header.map strTrim)))) := by
  constructor
  · intro header row h
    have hrk : rankCoerce (lookupCell row "순위") = none := by rw [h]; decide
    simp only [cleanRow, hrk]
  · intro t ht
    simp only [load_data_table, if_pos ht]

/-- Witness for C7: the "N/A" row of `c7table` is dropped, the rank-4 row
survives, and the load is not an error. -/
theorem rank_na_dropped_witness :
    cleanRow ["순위"] [("순위", some "N/A")] = none ∧
    load_data_table c7table =
      some (c7table.rows.filterMap (cleanRow (c7table.header.map strTrim))) ∧
    load_data_table c7table = some [⟨4, none, 0, 0, 0, 0, 0, 0, 0, 0, 0⟩] :=
  ⟨rank_na_dropped.1 ["순위"] [("순위", some "N/A")] (by decide),
   rank_na_dropped.2 c7table (by decide),
   by decide⟩

/-- C10: a rank cell that is numeric but not an integer, such as "3.7",
is not dropped: it passes coercion and is truncated toward zero to the
integer rank 3. -/
theorem rank_decimal_truncated (header : List String) (row : Row)
    (h : lookupCell row "순위" = some "3.7") :
    ∃ rec, cleanRow header row = some rec ∧ rec.rank = 3 := by
  have hrk : rankCoerce (lookupCell row "순위") = some 3 := by rw [h]; decide
  refine ⟨{ rank := 3
            country := lookupCell row "수입국"
            importValue := colValue header row "수입액(천$)"
            exportValue := colValue header row "수출액(천$)"
            tradeBalance := colValue header row "무역수지(천$)"
            imp2024 := colValue header row "2024 - 수입금액(천$)"
            exp2024 := colValue header row "2024 - 수출액(천$)"
            imp2023 := colValue header row "2023 - 수입금액(천$)"
            exp2023 := colValue header row "2023 - 수출액(천$)"
            imp2022 := colValue header row "2022 - 수입금액(천$)"
            exp2022 := colValue header row "2022 - 수출액(천$)" }, ?_, rfl⟩
  simp only [cleanRow, hrk]

/-- Witness for C10 at a concrete row. -/
theorem rank_decimal_truncated_witness :
    ∃ rec, cleanRow ["순위"] c10row = some rec ∧ rec.rank = 3 :=
  rank_decimal_truncated ["순위"] c10row (by decide)

/-- C6: for every table the loader accepts, every record traces back to a
source row, and each of the nine expected numeric columns is filled: a
present column by the total cleaning of its cell, an absent column by
zero.  Every field is a defined rational, so no null or NaN reaches the
view layer. -/
theorem numeric_columns_present_and_filled (t : RawTable) (recs : List Record)
    (rec : Record) (h : load_data_table t = some recs) (hrec : rec ∈ recs) :
    ∃ row, row ∈ t.rows ∧ cleanRow (t.header.map strTrim) row = some rec ∧
      ∀ p ∈ numeric_cols.zip (fieldsOf rec),
        (p.1 ∈ t.header.map strTrim →
          p.2 = cleanNumericCell (lookupCell row p.1)) ∧
        (p.1 ∉ t.header.map strTrim → p.2 = 0) := by
  rcases load_data_table_eq h with ⟨_, rfl⟩
  rcases List.mem_filterMap.mp hrec with ⟨row, hrowmem, hrow⟩
  refine ⟨row, hrowmem, hrow, ?_⟩
  rcases cleanRow_some hrow with ⟨rk, _, rfl⟩
  intro p hp
  simp only [numeric_cols, fieldsOf, List.zip_cons_cons, List.zip_nil_right,
    List.mem_cons, List.not_mem_nil, or_false] at hp
  rcases hp with rfl | rfl | rfl | rfl | rfl | rfl | rfl | rfl | rfl <;>
    exact ⟨fun hmem => by simp [colValue, hmem], fun hmem => by simp [colValue, hmem]⟩

/-- Witness for C6 at a concrete table with an untrimmed header and six
absent numeric columns. -/
theorem numeric_columns_present_and_filled_witness :
    ∃ row, row ∈ c6table.rows ∧
      cleanRow (c6table.header.map strTrim) row = some c6rec ∧
      ∀ p ∈ numeric_cols.zip (fieldsOf c6rec),
        (p.1 ∈ c6table.header.map strTrim →
          p.2 = cleanNumericCell (lookupCell row p.1)) ∧
        (p.1 ∉ c6table.header.map strTrim → p.2 = 0) :=
  numeric_columns_present_and_filled c6table [c6rec] c6rec (by decide) (by decide)

/-- C1 counterexample: over the empty rank-filtered sub-table produced by
the reachable slider range [5,5] on `c1df`, the import sum is 0 but the
trade-balance mean is the pandas NaN (modelled `none`), not a defined
fallback value such as 0 — the NaN propagates into the rendered metric. -/
theorem kpi_empty_mean_nan_counterexample :
    total_import (filtered_df c1df 5 5) = 0 ∧
    avg_balance (filtered_df c1df 5 5) = none := by
  decide

/-- C1 amended: over an empty rank-filtered sub-table the import and
export sums are 0 and the trade-balance mean evaluates, without raising,
to the pandas NaN (modelled `none`), which is rendered as-is rather than
replaced by a fallback. -/
theorem kpi_empty_aggregates (df : List Record) (a b : Int)
    (h : filtered_df df a b = []) :
    total_import (filtered_df df a b) = 0 ∧
    total_export (filtered_df df a b) = 0 ∧
    avg_balance (filtered_df df a b) = none := by
  rw [h]
  exact ⟨rfl, rfl, rfl⟩

/-- Witness for the amended C1 at the concrete table `c1df`. -/
theorem kpi_empty_aggregates_witness :
    total_import (filtered_df c1df 5 5) = 0 ∧
    total_export (filtered_df c1df 5 5) = 0 ∧
    avg_balance (filtered_df c1df 5 5) = none :=
  kpi_empty_aggregates c1df 5 5 (by decide)

/-- C4 counterexample: a row whose import value cleans to exactly 0 is
handed unchanged to the scatter chart while both logarithmic axes are
requested — it is neither excluded nor floored. -/
theorem scatter_zero_not_guarded_counterexample :
    load_data_table c4table = some [c4rec] ∧
    c4rec.importValue = 0 ∧
    c4rec ∈ (scatterFig (filtered_df [c4rec] 1 20)).data ∧
    (scatterFig (filtered_df [c4rec] 1 20)).logX = true ∧
    (scatterFig (filtered_df [c4rec] 1 20)).logY = true := by
  decide

/-- C4 amended: the correlation view applies no zero guard — the filtered
rows, including any with zero import or export value, are passed
unchanged as the data of the scatter chart, whose x and y axes are
logarithmic. -/
theorem scatter_passthrough (filtered : List Record) (rec : Record)
    (h : rec ∈ filtered) :
    (scatterFig filtered).data = filtered ∧
    rec ∈ (scatterFig filtered).data ∧
    (scatterFig filtered).logX = true ∧
    (scatterFig filtered).logY = true :=
  ⟨rfl, h, rfl, rfl⟩

/-- Witness for the amended C4 at the concrete zero-import record. -/
theorem scatter_passthrough_witness :
    (scatterFig [c4rec]).data = [c4rec] ∧
    c4rec ∈ (scatterFig [c4rec]).data ∧
    (scatterFig [c4rec]).logX = true ∧
    (scatterFig [c4rec]).logY = true :=
  scatter_passthrough [c4rec] c4rec (by decide)

/-- C8: the loader tries cp949 first; a decode failure falls back to
utf-8; a failure of that attempt too yields the error/empty result; a
non-decode failure of the first attempt yields the error/empty result
without trying utf-8; and every parse attempt takes the second line of
the file as the header, skipping the first. -/
theorem encoding_fallback_and_header (f : CsvFile)
    (hd : f.presentOnDisk = true) :
    (∀ lines, f.cp949 = ReadAttempt.ok lines →
      load_data f = (parseCsv lines).bind load_data_table) ∧
    (∀ lines, f.cp949 = ReadAttempt.decodeError →
      f.utf8 = ReadAttempt.ok lines →
      load_data f = (parseCsv lines).bind load_data_table) ∧
    (f.cp949 = ReadAttempt.decodeError →
      (f.utf8 = ReadAttempt.decodeError ∨ f.utf8 = ReadAttempt.otherError) →
      load_data f = none) ∧
    (f.cp949 = ReadAttempt.otherError → load_data f = none) ∧
    (∀ l0 l1 rest, (parseCsv (l0 :: l1 :: rest)).map RawTable.header = some l1) ∧
    parseCsv [] = none := by
  refine ⟨?_, ?_, ?_, ?_, ?_, rfl⟩
  · intro lines hcp
    simp only [load_data, hd, hcp]
    cases hpc : parseCsv lines <;> simp [hpc]
  · intro lines hcp hu
    simp only [load_data, hd, hcp, hu]
    cases hpc : parseCsv lines <;> simp [hpc]
  · intro hcp hu
    rcases hu with hu | hu <;> simp [load_data, hd, hcp, hu]
  · intro hcp
    simp [load_data, hd, hcp]
  · intro l0 l1 rest
    simp [parseCsv]

/-- Witness for C8: the concrete file `c8file` decode-fails under cp949,
succeeds under utf-8, and its banner line is skipped. -/
theorem encoding_fallback_and_header_witness :
    load_data c8file =
      (parseCsv [["제목"], ["순위"], ["2"]]).bind load_data_table ∧
    load_data c8file = some [⟨2, none, 0, 0, 0, 0, 0, 0, 0, 0, 0⟩] :=
  ⟨(encoding_fallback_and_header c8file rfl).2.1 [["제목"], ["순위"], ["2"]] rfl rfl,
   by decide⟩

/-- C9: the trend-view selector offers only countries of the rank-filtered
sub-table; any selectable country therefore also exists in the full
table, its row lookup in the full table succeeds, and the trend view
renders without reaching the crashing empty-lookup path. -/
theorem trend_selector_from_filtered (df : List Record) (a b : Int) (s : String)
    (hsel : some s ∈ countryOptions (filtered_df df a b)) :
    (∃ rec, rec ∈ filtered_df df a b ∧ rec.country = some s) ∧
    (∃ rec, rec ∈ df ∧ rec.country = some s) ∧
    (∃ rec, trendLookup df (some s) = some rec ∧ rec ∈ df ∧
      rec.country = some s) ∧
    (trend_view df (filtered_df df a b) (some s)).isSome = true := by
  have h1 : ∃ rec, rec ∈ filtered_df df a b ∧ rec.country = some s := by
    rcases List.mem_map.mp (List.mem_dedup.mp hsel) with ⟨rec, hm, hc⟩
    exact ⟨rec, hm, hc⟩
  rcases h1 with ⟨rec, hm, hc⟩
  have hdf : rec ∈ df := (List.mem_filter.mp hm).1
  have hfind : (df.find? (fun r => pandasEq r.country (some s))).isSome := by
    rw [List.find?_isSome]
    exact ⟨rec, hdf, by simp [pandasEq, hc]⟩
  rcases Option.isSome_iff_exists.mp hfind with ⟨rec2, hrec2⟩
  have hp := List.find?_some hrec2
  have hmem2 := List.mem_of_find?_eq_some hrec2
  have hc2 : rec2.country = some s := by
    unfold pandasEq at hp
    cases hcountry : rec2.country with
    | none => rw [hcountry] at hp; simp at hp
    | some c =>
        rw [hcountry] at hp
        simp only [beq_iff_eq] at hp
        rw [hp]
  refine ⟨⟨rec, hm, hc⟩, ⟨rec, hdf, hc⟩, ⟨rec2, hrec2, hmem2, hc2⟩, ?_⟩
  unfold trend_view
  rw [if_neg ?hne]
  case hne =>
    simp only [List.isEmpty_iff]
    exact List.ne_nil_of_mem hsel
  show (match trendLookup df (some s) with
    | some rec => some (TrendOutput.chart
        [rec.imp2022, rec.imp2023, rec.imp2024]
        [rec.exp2022, rec.exp2023, rec.exp2024])
    | none => none).isSome = true
  rw [show trendLookup df (some s) = some rec2 from hrec2]
  rfl

/-- Witness for C9 at the concrete table `c9df` and the selectable
country of its rank-1 row. -/
theorem trend_selector_from_filtered_witness :
    (∃ rec, rec ∈ filtered_df c9df 1 20 ∧ rec.country = some "인도") ∧
    (∃ rec, rec ∈ c9df ∧ rec.country = some "인도") ∧
    (∃ rec, trendLookup c9df (some "인도") = some rec ∧ rec ∈ c9df ∧
      rec.country = some "인도") ∧
    (trend_view c9df (filtered_df c9df 1 20) (some "인도")).isSome = true :=
  trend_selector_from_filtered c9df 1 20 "인도" (by decide)

end ImpExp
